import Mathlib

/-!
Shallow embedding of the request-translation layer of an LSP-style server
(`server.py`): completion-kind mapping, range construction, coordinate
translation, virtual document naming (MD5 content hash) and the two request
handlers (completion, diagnostics).  Python integers are modelled as `Int`
(positions) or `Nat` (hash arithmetic, with explicit `% 2 ^ 32` where the
MD5 algorithm wraps); Python exceptions are modelled with `Except`, and the
Python `ast.parse` / jedi engine collaborators are passed in as explicit
function arguments returning tagged results.
-/

namespace Server

/-- `Position` model: 0-based line and character (`server.py` lines 19-22).
Python `int` is unbounded, hence `Int`. -/
structure Position where
  line : Int
  character : Int
  deriving Repr, DecidableEq

/-- A text document: full text content (`server.py` lines 24-26). -/
structure TextDocument where
  text : String
  deriving Repr, DecidableEq

/-- Parameters of a completion request (`server.py` lines 28-31). -/
structure CompletionParams where
  text_document : TextDocument
  position : Position
  deriving Repr, DecidableEq

/-- A completion item (`server.py` lines 33-38): `detail` and
`documentation` are `Optional[str]` defaulting to `None`, hence
`Option String`. -/
structure CompletionItem where
  label : String
  kind : Int
  detail : Option String
  documentation : Option String
  deriving Repr, DecidableEq

/-- An LSP range as built by `create_range`: the Python dict
`{"start": {...}, "end": {...}}`.  The `end` key is a Lean keyword, so the
field is called `endPos`. -/
structure Range where
  start : Position
  endPos : Position
  deriving Repr, DecidableEq

/-- A diagnostic (`server.py` lines 40-44). -/
structure Diagnostic where
  range : Range
  message : String
  severity : Int
  deriving Repr, DecidableEq

/-- Response of the completion endpoint (`server.py` lines 46-48). -/
structure CompletionResponse where
  items : List CompletionItem
  deriving Repr, DecidableEq

/-- Response of the diagnostic endpoint (`server.py` lines 50-52). -/
structure DiagnosticResponse where
  diagnostics : List Diagnostic
  deriving Repr, DecidableEq

/-- An HTTP error raised via `HTTPException(status_code=..., detail=...)`. -/
structure HTTPException where
  status_code : Int
  detail : String
  deriving Repr, DecidableEq

/-- The `COMPLETION_KINDS` dict (`server.py` lines 56-59), as an
association list with the keys in source order. -/
def COMPLETION_KINDS : List (String × Int) :=
  [("module", 9), ("class", 7), ("instance", 6), ("function", 3),
   ("param", 6), ("path", 17), ("keyword", 14), ("property", 10), ("method", 2)]

/-- `get_completion_kind` (`server.py` lines 61-66):
`COMPLETION_KINDS.get(type_name, 1)`. -/
def get_completion_kind (type_name : String) : Int :=
  match COMPLETION_KINDS.lookup type_name with
  | some k => k
  | none => 1

/-- `create_range` (`server.py` lines 68-78).  The Python defaults
`end_line=None` / `end_column=None` are `Option Int` arguments, and the
bodies `end_line = end_line or line`, `end_column = end_column or column + 1`
use Python truthiness: both `None` and `0` are falsy, so an explicit `0`
falls back to the default just like an omitted argument. -/
def create_range (line column : Int) (end_line end_column : Option Int) : Range :=
  let el : Int := match end_line with
    | some v => if v ≠ 0 then v else line
    | none => line
  let ec : Int := match end_column with
    | some v => if v ≠ 0 then v else column + 1
    | none => column + 1
  { start := { line := line, character := column },
    endPos := { line := el, character := ec } }

/-! ### MD5 (model of Python `hashlib.md5(...).hexdigest()`)

`get_virtual_path` hashes the UTF-8 encoding of the document text with MD5
and renders the digest as 32 lowercase hex characters.  The algorithm below
is RFC 1321 over `Nat` with explicit `% 2 ^ 32` wrapping. -/

/-- Per-round left-rotation amounts of MD5 (RFC 1321). -/
def md5_s : List Nat :=
  [7, 12, 17, 22, 7, 12, 17, 22, 7, 12, 17, 22, 7, 12, 17, 22,
   5, 9, 14, 20, 5, 9, 14, 20, 5, 9, 14, 20, 5, 9, 14, 20,
   4, 11, 16, 23, 4, 11, 16, 23, 4, 11, 16, 23, 4, 11, 16, 23,
   6, 10, 15, 21, 6, 10, 15, 21, 6, 10, 15, 21, 6, 10, 15, 21]

/-- Per-round additive constants of MD5 (RFC 1321). -/
def md5_K : List Nat :=
  [0xd76aa478, 0xe8c7b756, 0x242070db, 0xc1bdceee,
   0xf57c0faf, 0x4787c62a, 0xa8304613, 0xfd469501,
   0x698098d8, 0x8b44f7af, 0xffff5bb1, 0x895cd7be,
   0x6b901122, 0xfd987193, 0xa679438e, 0x49b40821,
   0xf61e2562, 0xc040b340, 0x265e5a51, 0xe9b6c7aa,
   0xd62f105d, 0x02441453, 0xd8a1e681, 0xe7d3fbc8,
   0x21e1cde6, 0xc33707d6, 0xf4d50d87, 0x455a14ed,
   0xa9e3e905, 0xfcefa3f8, 0x676f02d9, 0x8d2a4c8a,
   0xfffa3942, 0x8771f681, 0x6d9d6122, 0xfde5380c,
   0xa4beea44, 0x4bdecfa9, 0xf6bb4b60, 0xbebfbc70,
   0x289b7ec6, 0xeaa127fa, 0xd4ef3085, 0x04881d05,
   0xd9d4d039, 0xe6db99e5, 0x1fa27cf8, 0xc4ac5665,
   0xf4292244, 0x432aff97, 0xab9423a7, 0xfc93a039,
   0x655b59c3, 0x8f0ccc92, 0xffeff47d, 0x85845dd1,
   0x6fa87e4f, 0xfe2ce6e0, 0xa3014314, 0x4e0811a1,
   0xf7537e82, 0xbd3af235, 0x2ad7d2bb, 0xeb86d391]

/-- 32-bit left rotation on `Nat`, wrapping at `2 ^ 32`. -/
def rotl32 (x s : Nat) : Nat :=
  ((x <<< s) ||| (x >>> (32 - s))) % 4294967296

/-- The `g`-th little-endian 32-bit word of a 64-byte chunk. -/
def md5_word (chunk : List Nat) (g : Nat) : Nat :=
  chunk.getD (4 * g) 0 + 256 * chunk.getD (4 * g + 1) 0 +
    65536 * chunk.getD (4 * g + 2) 0 + 16777216 * chunk.getD (4 * g + 3) 0

/-- One of the 64 MD5 rounds, on state `(A, B, C, D)`. -/
def md5_step (chunk : List Nat) (st : Nat × Nat × Nat × Nat) (i : Nat) :
    Nat × Nat × Nat × Nat :=
  let A := st.1
  let B := st.2.1
  let C := st.2.2.1
  let D := st.2.2.2
  let F : Nat :=
    if i < 16 then (B &&& C) ||| ((B ^^^ 0xffffffff) &&& D)
    else if i < 32 then (D &&& B) ||| ((D ^^^ 0xffffffff) &&& C)
    else if i < 48 then B ^^^ C ^^^ D
    else C ^^^ (B ||| (D ^^^ 0xffffffff))
  let g : Nat :=
    if i < 16 then i
    else if i < 32 then (5 * i + 1) % 16
    else if i < 48 then (3 * i + 5) % 16
    else (7 * i) % 16
  let Fv := (F + A + md5_K.getD i 0 + md5_word chunk g) % 4294967296
  (D, (B + rotl32 Fv (md5_s.getD i 0)) % 4294967296, B, C)

/-- Process one 64-byte chunk: run the 64 rounds, then add the result back
into the incoming state modulo `2 ^ 32`. -/
def md5_chunk (chunk : List Nat) (st : Nat × Nat × Nat × Nat) :
    Nat × Nat × Nat × Nat :=
  let r := (List.range 64).foldl (md5_step chunk) st
  ((st.1 + r.1) % 4294967296, (st.2.1 + r.2.1) % 4294967296,
   (st.2.2.1 + r.2.2.1) % 4294967296, (st.2.2.2 + r.2.2.2) % 4294967296)

/-- MD5 padding: append `0x80`, zero bytes up to 56 mod 64, then the
original bit length as 8 little-endian bytes (mod `2 ^ 64`). -/
def md5_pad (bs : List Nat) : List Nat :=
  let len := bs.length
  let z := (119 - len % 64) % 64
  let lenBits := (8 * len) % 18446744073709551616
  bs ++ [128] ++ List.replicate z 0 ++
    (List.range 8).map (fun j => (lenBits >>> (8 * j)) % 256)

/-- Fold `md5_chunk` over successive 64-byte chunks; `fuel` bounds the
number of iterations (any `fuel ≥` number of chunks gives the same result,
and callers pass the list length). -/
def md5_loop : Nat → List Nat → Nat × Nat × Nat × Nat → Nat × Nat × Nat × Nat
  | 0, _, st => st
  | _ + 1, [], st => st
  | fuel + 1, bs, st => md5_loop fuel (bs.drop 64) (md5_chunk (bs.take 64) st)

/-- The four little-endian bytes of a 32-bit word. -/
def le32_bytes (x : Nat) : List Nat :=
  [x % 256, x / 256 % 256, x / 65536 % 256, x / 16777216 % 256]

/-- The 16-byte MD5 digest of a byte sequence. -/
def md5_digest_bytes (bs : List Nat) : List Nat :=
  let padded := md5_pad bs
  let r := md5_loop padded.length padded
    (0x67452301, 0xefcdab89, 0x98badcfe, 0x10325476)
  le32_bytes r.1 ++ le32_bytes r.2.1 ++ le32_bytes r.2.2.1 ++ le32_bytes r.2.2.2

/-- Lowercase hexadecimal digit for a value below 16. -/
def hex_digit (n : Nat) : Char :=
  if n < 10 then Char.ofNat (48 + n) else Char.ofNat (87 + n)

/-- Render bytes as lowercase hex, two characters per byte. -/
def bytes_to_hex (bs : List Nat) : List Char :=
  bs.foldr (fun b acc => hex_digit (b / 16 % 16) :: hex_digit (b % 16) :: acc) []

/-- `document_text.encode()`: the UTF-8 bytes of a string. -/
def string_bytes (s : String) : List Nat :=
  s.toUTF8.toList.map UInt8.toNat

/-- `hashlib.md5(document_text.encode()).hexdigest()`. -/
def md5_hexdigest (s : String) : String :=
  String.mk (bytes_to_hex (md5_digest_bytes (string_bytes s)))

/-- `get_virtual_path` (`server.py` lines 80-91): the f-string
interpolating the MD5 content hash between the fixed prefix and suffix. -/
def get_virtual_path (document_text : String) : String :=
  "<virtual_document_" ++ md5_hexdigest document_text ++ ".py>"

/-- The client→engine line translation performed by `provide_completion`
(`server.py` line 106): `line = params.position.line + 1`. -/
def to_engine_line (client_line : Int) : Int :=
  client_line + 1

/-- The client→engine character translation performed by
`provide_completion` (`server.py` line 107): the character offset is passed
through unchanged. -/
def to_engine_character (client_character : Int) : Int :=
  client_character

/-- The parser→client line translation performed by `provide_diagnostics`
(`server.py` lines 157 and 161): `lineno - 1` when present, `0` when the
parser reports no line, then clamped to be non-negative. -/
def to_client_line (engine_line : Option Int) : Int :=
  let line : Int := match engine_line with
    | some l => l - 1
    | none => 0
  if line < 0 then 0 else line

/-- The parser→client column translation performed by `provide_diagnostics`
(`server.py` lines 158 and 162): `offset - 1` when present, `0` when
absent, clamped to be non-negative. -/
def to_client_column (engine_column : Option Int) : Int :=
  let col : Int := match engine_column with
    | some o => o - 1
    | none => 0
  if col < 0 then 0 else col

/-- A jedi completion match as read by the handler: `completion.name`,
`completion.type`, `completion.docstring()` (`server.py` lines 120-126). -/
structure EngineMatch where
  name : String
  type : String
  docstring : String
  deriving Repr, DecidableEq

/-- The body of the `for completion in completions` loop (`server.py`
lines 119-127): one `CompletionItem` appended per match, in order. -/
def completion_items_of (completions : List EngineMatch) : List CompletionItem :=
  completions.map fun completion =>
    { label := completion.name,
      kind := get_completion_kind completion.type,
      detail := some completion.type,
      documentation := some completion.docstring }

/-- The jedi engine collaborator
`jedi.Script(code, path).complete(line, character)`: either a sequence of
matches or a raised exception, modelled as `Except` with the exception's
`str(e)` text. -/
def Engine : Type :=
  String → String → Int → Int → Except String (List EngineMatch)

/-- `provide_completion` (`server.py` lines 94-138).  The `try` block
translates the client position (line + 1, character unchanged), derives the
virtual path, invokes the engine and maps its matches; any exception is
caught and re-raised as `HTTPException(500, "Completion error: " + str(e))`. -/
def provide_completion (params : CompletionParams) (engine : Engine) :
    Except HTTPException CompletionResponse :=
  let document_text := params.text_document.text
  let line := to_engine_line params.position.line
  let character := to_engine_character params.position.character
  let path := get_virtual_path document_text
  match engine document_text path line character with
  | .ok completions => .ok { items := completion_items_of completions }
  | .error e => .error { status_code := 500, detail := "Completion error: " ++ e }

/-- Outcome of the `ast.parse` collaborator: success, a raised
`SyntaxError` carrying `e.lineno` (1-based or `None`), `e.offset` (1-based
or `None`) and `str(e)`, or any other raised exception. -/
inductive ParseResult where
  | ok : ParseResult
  | syntaxError (lineno : Option Int) (offset : Option Int) (msg : String) : ParseResult
  | otherError (msg : String) : ParseResult
  deriving Repr, DecidableEq

/-- `provide_diagnostics` (`server.py` lines 140-172).  Only
`SyntaxError` is caught and turned into the single diagnostic with the
translated, clamped position and a one-character point range; success gives
an empty list, and any other exception escapes the handler as a server
error (FastAPI turns an uncaught exception into a 500 response). -/
def provide_diagnostics (params : TextDocument) (parse : String → ParseResult) :
    Except HTTPException DiagnosticResponse :=
  let document_text := params.text
  match parse document_text with
  | .ok => .ok { diagnostics := [] }
  | .syntaxError lineno offset msg =>
      let line := to_client_line lineno
      let col := to_client_column offset
      .ok { diagnostics :=
              [{ range := create_range line col none none,
                 message := msg,
                 severity := 1 }] }
  | .otherError msg => .error { status_code := 500, detail := msg }

/-! ### Helper lemmas -/

/-- Hex rendering emits exactly two characters per byte. -/
theorem bytes_to_hex_length (bs : List Nat) :
    (bytes_to_hex bs).length = 2 * bs.length := by
  induction bs with
  | nil => rfl
  | cons b t ih =>
      simp only [bytes_to_hex, List.foldr_cons, List.length_cons] at ih ⊢
      omega

/-- An MD5 digest is 16 bytes long. -/
theorem md5_digest_bytes_length (bs : List Nat) :
    (md5_digest_bytes bs).length = 16 := by
  simp [md5_digest_bytes, le32_bytes]

/-! ### Claims -/

/-- C1 counterexample: the claim lists `parameter→6`, but the table in the
code is keyed by the string `param`, so `get_completion_kind` applied to
the string `parameter` falls through to the default 1, not 6 — and the
string `param`, absent from the claim's table, maps to 6, not 1. -/
theorem C1_counterexample :
    get_completion_kind "parameter" = 1 ∧ (1 : Int) ≠ 6 ∧
    get_completion_kind "param" = 6 ∧ (6 : Int) ≠ 1 := by
  refine ⟨by decide, by decide, by decide, by decide⟩

/-- C1 (amended): the completion-kind mapping is total and matches the
table in the code exactly — module→9, class→7, instance→6, function→3,
param→6 (the key is `param`, not `parameter`), path→17, keyword→14,
property→10, method→2 — and every string outside that table maps to 1. -/
theorem C1_kind_mapping_total (s : String)
    (h : s ∉ ["module", "class", "instance", "function", "param",
              "path", "keyword", "property", "method"]) :
    get_completion_kind "module" = 9 ∧ get_completion_kind "class" = 7 ∧
    get_completion_kind "instance" = 6 ∧ get_completion_kind "function" = 3 ∧
    get_completion_kind "param" = 6 ∧ get_completion_kind "path" = 17 ∧
    get_completion_kind "keyword" = 14 ∧ get_completion_kind "property" = 10 ∧
    get_completion_kind "method" = 2 ∧ get_completion_kind s = 1 := by
  refine ⟨by decide, by decide, by decide, by decide, by decide,
          by decide, by decide, by decide, by decide, ?_⟩
  simp only [List.mem_cons, List.not_mem_nil, or_false, not_or] at h
  obtain ⟨h1, h2, h3, h4, h5, h6, h7, h8, h9⟩ := h
  simp [get_completion_kind, COMPLETION_KINDS, List.lookup,
        beq_eq_false_iff_ne.mpr h1, beq_eq_false_iff_ne.mpr h2,
        beq_eq_false_iff_ne.mpr h3, beq_eq_false_iff_ne.mpr h4,
        beq_eq_false_iff_ne.mpr h5, beq_eq_false_iff_ne.mpr h6,
        beq_eq_false_iff_ne.mpr h7, beq_eq_false_iff_ne.mpr h8,
        beq_eq_false_iff_ne.mpr h9]

/-- C1 witness: the amended mapping at the out-of-table string `statement`. -/
theorem C1_kind_mapping_total_witness :
    get_completion_kind "module" = 9 ∧ get_completion_kind "class" = 7 ∧
    get_completion_kind "instance" = 6 ∧ get_completion_kind "function" = 3 ∧
    get_completion_kind "param" = 6 ∧ get_completion_kind "path" = 17 ∧
    get_completion_kind "keyword" = 14 ∧ get_completion_kind "property" = 10 ∧
    get_completion_kind "method" = 2 ∧ get_completion_kind "statement" = 1 :=
  C1_kind_mapping_total "statement" (by decide)

/-- C2 counterexample: supplying the explicit end position `(0, 0)` does
not survive into the result — Python `or` treats 0 as falsy, so the call
falls back to the defaults, ending the range at line 5, character 4
instead of line 0, character 0. -/
theorem C2_counterexample :
    create_range 5 3 (some 0) (some 0) =
      { start := { line := 5, character := 3 },
        endPos := { line := 5, character := 4 } } ∧
    ¬ ((create_range 5 3 (some 0) (some 0)).endPos.line = 0 ∧
       (create_range 5 3 (some 0) (some 0)).endPos.character = 0) := by
  refine ⟨by decide, by decide⟩

/-- C2 (amended): when `endLine` and `endColumn` are explicitly supplied
with nonzero values, the returned range ends exactly at the supplied
values; the defaults (`endLine = line`, `endColumn = column + 1`) apply
when an override is absent or equal to 0, since Python `or` treats 0 like
`None`. -/
theorem C2_explicit_end (line column el ec : Int)
    (hel : el ≠ 0) (hec : ec ≠ 0) :
    (create_range line column (some el) (some ec)).endPos =
      { line := el, character := ec } ∧
    (create_range line column none none).endPos =
      { line := line, character := column + 1 } ∧
    (create_range line column (some 0) (some 0)).endPos =
      { line := line, character := column + 1 } := by
  refine ⟨?_, ?_, ?_⟩
  · simp [create_range, hel, hec]
  · simp [create_range]
  · simp [create_range]

/-- C2 witness: the amended range construction at concrete coordinates. -/
theorem C2_explicit_end_witness :
    (create_range 1 2 (some 7) (some 9)).endPos = { line := 7, character := 9 } ∧
    (create_range 1 2 none none).endPos = { line := 1, character := 3 } ∧
    (create_range 1 2 (some 0) (some 0)).endPos = { line := 1, character := 3 } :=
  C2_explicit_end 1 2 7 9 (by decide) (by decide)

/-- C3: the diagnostics operation returns a list of length 0 or 1: a
successful parse yields zero diagnostics, and a syntax failure yields
exactly one diagnostic with severity 1 whose message is the parser's
error text. -/
theorem C3_diagnostics_zero_or_one (params : TextDocument)
    (parse : String → ParseResult) :
    (∀ r, provide_diagnostics params parse = .ok r → r.diagnostics.length ≤ 1) ∧
    (parse params.text = .ok →
      provide_diagnostics params parse = .ok { diagnostics := [] }) ∧
    (∀ lineno offset msg, parse params.text = .syntaxError lineno offset msg →
      ∃ d, provide_diagnostics params parse = .ok { diagnostics := [d] } ∧
        d.severity = 1 ∧ d.message = msg) := by
  refine ⟨?_, ?_, ?_⟩
  · intro r hr
    rcases hp : parse params.text with _ | ⟨l, o, m⟩ | m <;>
      simp only [provide_diagnostics, hp] at hr
    · cases hr
      simp
    · cases hr
      simp
    · simp at hr
  · intro hp
    simp only [provide_diagnostics, hp]
  · intro lineno offset msg hp
    refine ⟨{ range := create_range (to_client_line lineno)
                (to_client_column offset) none none,
              message := msg, severity := 1 }, ?_, rfl, rfl⟩
    simp only [provide_diagnostics, hp]

/-- C3 witness: a concrete syntax failure produces the single severity-1
diagnostic carrying the parser's message. -/
theorem C3_diagnostics_zero_or_one_witness :
    ∃ d, provide_diagnostics ⟨"if True\n    print(1)\n"⟩
        (fun _ => .syntaxError (some 1) (some 8) "expected :") =
      .ok { diagnostics := [d] } ∧ d.severity = 1 ∧ d.message = "expected :" :=
  (C3_diagnostics_zero_or_one ⟨"if True\n    print(1)\n"⟩
    (fun _ => .syntaxError (some 1) (some 8) "expected :")).2.2
    (some 1) (some 8) "expected :" rfl

/-- C4: on a syntax failure the emitted diagnostic starts at the parser's
1-based line and column translated to 0-based (absent values become 0 and
negative results are clamped to 0), and its range is the one-character
point range ending at character + 1 on the same line. -/
theorem C4_diagnostic_position (params : TextDocument)
    (parse : String → ParseResult) (lineno offset : Option Int) (msg : String)
    (h : parse params.text = .syntaxError lineno offset msg) :
    ∃ d, provide_diagnostics params parse = .ok { diagnostics := [d] } ∧
      d.range.start.line =
        (match lineno with | some l => max (l - 1) 0 | none => 0) ∧
      d.range.start.character =
        (match offset with | some o => max (o - 1) 0 | none => 0) ∧
      d.range.endPos =
        { line := d.range.start.line,
          character := d.range.start.character + 1 } := by
  refine ⟨{ range := create_range (to_client_line lineno)
              (to_client_column offset) none none,
            message := msg, severity := 1 }, ?_, ?_, ?_, rfl⟩
  · simp only [provide_diagnostics, h]
  · show to_client_line lineno = _
    rcases lineno with _ | l
    · simp [to_client_line]
    · simp only [to_client_line]
      split <;> omega
  · show to_client_column offset = _
    rcases offset with _ | o
    · simp [to_client_column]
    · simp only [to_client_column]
      split <;> omega

/-- C4 witness: the diagnostic position for a parser error at 1-based
line 1, column 8 is the 0-based point range from (0, 7) to (0, 8). -/
theorem C4_diagnostic_position_witness :
    ∃ d, provide_diagnostics ⟨"if True\n    print(1)\n"⟩
        (fun _ => .syntaxError (some 1) (some 8) "expected :") =
      .ok { diagnostics := [d] } ∧
      d.range.start.line = max ((1 : Int) - 1) 0 ∧
      d.range.start.character = max ((8 : Int) - 1) 0 ∧
      d.range.endPos =
        { line := d.range.start.line,
          character := d.range.start.character + 1 } :=
  C4_diagnostic_position ⟨"if True\n    print(1)\n"⟩
    (fun _ => .syntaxError (some 1) (some 8) "expected :")
    (some 1) (some 8) "expected :" rfl

/-- C5: translating a non-negative client line to the engine's 1-based
convention and back is the identity, with the translations as the code
performs them (`+ 1` outward, `- 1` clamped at 0 inward), and character
offsets pass through unchanged on the way to the engine. -/
theorem C5_line_roundtrip (L C : Int) (hL : 0 ≤ L) :
    to_engine_line L = L + 1 ∧
    to_client_line (some (L + 1)) = max ((L + 1) - 1) 0 ∧
    to_client_line (some (to_engine_line L)) = L ∧
    to_engine_character C = C := by
  refine ⟨rfl, ?_, ?_, rfl⟩
  · simp [to_client_line]
    omega
  · simp [to_client_line, to_engine_line]
    omega

/-- C5 witness: the round trip at client line 41 and character 7. -/
theorem C5_line_roundtrip_witness :
    to_engine_line 41 = 42 ∧
    to_client_line (some (41 + 1)) = max ((41 + 1 : Int) - 1) 0 ∧
    to_client_line (some (to_engine_line 41)) = 41 ∧
    to_engine_character 7 = 7 :=
  C5_line_roundtrip 41 7 (by decide)

/-- C6: the completion translation produces exactly one item per engine
match, in the engine's order — the label list is the name list, lengths
agree, each label equals the corresponding match name (hence is non-empty
whenever the name is), and the handler returns exactly these items when
the engine succeeds. -/
theorem C6_items_preserve_matches (ms : List EngineMatch) :
    (completion_items_of ms).length = ms.length ∧
    (completion_items_of ms).map CompletionItem.label
      = ms.map EngineMatch.name ∧
    (∀ i (h : i < ms.length) (h' : i < (completion_items_of ms).length),
      (completion_items_of ms)[i].label = ms[i].name ∧
      (ms[i].name ≠ "" → (completion_items_of ms)[i].label ≠ "")) ∧
    ∀ params engine,
      engine params.text_document.text
          (get_virtual_path params.text_document.text)
          (to_engine_line params.position.line)
          (to_engine_character params.position.character) = .ok ms →
        provide_completion params engine = .ok { items := completion_items_of ms } := by
  refine ⟨?_, ?_, ?_, ?_⟩
  · simp [completion_items_of]
  · simp [completion_items_of]
  · intro i h h'
    constructor
    · simp [completion_items_of]
    · intro hne
      simpa [completion_items_of] using hne
  · intro params engine he
    simp only [provide_completion, he]

/-- C6 witness: a single engine match yields the single matching item,
and the handler returns it. -/
theorem C6_items_preserve_matches_witness :
    (completion_items_of [⟨"add", "function", "docs"⟩]).map CompletionItem.label
      = ["add"] ∧
    provide_completion ⟨⟨"import m\nm."⟩, ⟨1, 2⟩⟩
        (fun _ _ _ _ => .ok [⟨"add", "function", "docs"⟩]) =
      .ok { items := completion_items_of [⟨"add", "function", "docs"⟩] } := by
  have h := C6_items_preserve_matches [⟨"add", "function", "docs"⟩]
  exact ⟨h.2.1.trans rfl, h.2.2.2 ⟨⟨"import m\nm."⟩, ⟨1, 2⟩⟩ _ rfl⟩

/-- C7: when the engine invocation raises, the completion handler returns
a 500 server error whose message carries the exception text, and returns
no item list at all. -/
theorem C7_engine_error_no_items (params : CompletionParams) (engine : Engine)
    (emsg : String)
    (h : engine params.text_document.text
        (get_virtual_path params.text_document.text)
        (to_engine_line params.position.line)
        (to_engine_character params.position.character) = .error emsg) :
    provide_completion params engine =
      .error { status_code := 500, detail := "Completion error: " ++ emsg } ∧
    ∀ r, provide_completion params engine ≠ .ok r := by
  have he : provide_completion params engine =
      .error { status_code := 500, detail := "Completion error: " ++ emsg } := by
    simp only [provide_completion, h]
  refine ⟨he, ?_⟩
  intro r hr
  rw [he] at hr
  simp at hr

/-- C7 witness: a concretely failing engine produces the 500 error and no
successful response. -/
theorem C7_engine_error_no_items_witness :
    provide_completion ⟨⟨"x."⟩, ⟨0, 2⟩⟩ (fun _ _ _ _ => .error "engine fault") =
      .error { status_code := 500, detail := "Completion error: " ++ "engine fault" } ∧
    ∀ r, provide_completion ⟨⟨"x."⟩, ⟨0, 2⟩⟩
        (fun _ _ _ _ => .error "engine fault") ≠ .ok r :=
  C7_engine_error_no_items ⟨⟨"x."⟩, ⟨0, 2⟩⟩
    (fun _ _ _ _ => .error "engine fault") "engine fault" rfl

/-- C8: a non-syntax exception during parsing escapes the diagnostics
handler as a server error, never as a successful response, and a
successful response can carry a diagnostic only when the parse outcome
was a syntax error. -/
theorem C8_nonsyntax_error_propagates (params : TextDocument)
    (parse : String → ParseResult) (m : String)
    (h : parse params.text = .otherError m) :
    provide_diagnostics params parse = .error { status_code := 500, detail := m } ∧
    (∀ r, provide_diagnostics params parse ≠ .ok r) ∧
    ∀ parse' r, provide_diagnostics params parse' = .ok r →
      r.diagnostics ≠ [] →
        ∃ lineno offset msg, parse' params.text = .syntaxError lineno offset msg := by
  have he : provide_diagnostics params parse =
      .error { status_code := 500, detail := m } := by
    simp only [provide_diagnostics, h]
  refine ⟨he, ?_, ?_⟩
  · intro r hr
    rw [he] at hr
    simp at hr
  · intro parse' r hr hne
    rcases hp : parse' params.text with _ | ⟨l, o, pm⟩ | pm <;>
      simp only [provide_diagnostics, hp] at hr
    · cases hr
      simp at hne
    · exact ⟨l, o, pm, rfl⟩
    · simp at hr

/-- C8 witness: a concrete non-syntax failure yields the server error and
no diagnostic response. -/
theorem C8_nonsyntax_error_propagates_witness :
    provide_diagnostics ⟨"x = 1\n"⟩ (fun _ => .otherError "out of memory") =
      .error { status_code := 500, detail := "out of memory" } ∧
    (∀ r, provide_diagnostics ⟨"x = 1\n"⟩
        (fun _ => .otherError "out of memory") ≠ .ok r) ∧
    ∀ parse' r, provide_diagnostics ⟨"x = 1\n"⟩ parse' = .ok r →
      r.diagnostics ≠ [] →
        ∃ lineno offset msg,
          parse' (TextDocument.text ⟨"x = 1\n"⟩) = .syntaxError lineno offset msg :=
  C8_nonsyntax_error_propagates ⟨"x = 1\n"⟩
    (fun _ => .otherError "out of memory") "out of memory" rfl

/-- C9: the virtual-path namer is a pure function of the document text:
it always returns the fixed prefix, the 32-character MD5 hex digest of the
text, and the fixed suffix, so identical content always yields the
identical name. -/
theorem C9_virtual_path_deterministic (t t' : String) (h : t = t') :
    get_virtual_path t = "<virtual_document_" ++ md5_hexdigest t ++ ".py>" ∧
    get_virtual_path t = get_virtual_path t' ∧
    (md5_hexdigest t).length = 32 := by
  refine ⟨rfl, by rw [h], ?_⟩
  show (String.mk (bytes_to_hex (md5_digest_bytes (string_bytes t)))).length = 32
  have hm : (String.mk (bytes_to_hex (md5_digest_bytes (string_bytes t)))).length
      = (bytes_to_hex (md5_digest_bytes (string_bytes t))).length := rfl
  rw [hm, bytes_to_hex_length, md5_digest_bytes_length]

/-- C9 witness: the virtual path of a concrete document text. -/
theorem C9_virtual_path_deterministic_witness :
    get_virtual_path "x = 1\n" =
      "<virtual_document_" ++ md5_hexdigest "x = 1\n" ++ ".py>" ∧
    get_virtual_path "x = 1\n" = get_virtual_path "x = 1\n" ∧
    (md5_hexdigest "x = 1\n").length = 32 :=
  C9_virtual_path_deterministic "x = 1\n" "x = 1\n" rfl

/-- C10: for every engine match, the corresponding item's detail is
exactly the match's category string (the same string fed to the kind
mapper) and its documentation is the match's docstring; both fields are
always populated, never omitted. -/
theorem C10_detail_and_docs_verbatim (ms : List EngineMatch) (i : Nat)
    (h : i < ms.length) (h' : i < (completion_items_of ms).length) :
    (completion_items_of ms)[i].detail = some ms[i].type ∧
    CompletionItem.documentation ((completion_items_of ms)[i]) = some ms[i].docstring ∧
    (completion_items_of ms)[i].kind = get_completion_kind ms[i].type ∧
    (completion_items_of ms)[i].detail ≠ none ∧
    CompletionItem.documentation ((completion_items_of ms)[i]) ≠ none := by
  simp [completion_items_of, List.getElem_map]

/-- C10 witness: detail and documentation of the item built from a
concrete match. -/
theorem C10_detail_and_docs_verbatim_witness :
    ((completion_items_of [⟨"add", "function", "Adds two numbers."⟩]).get
        ⟨0, by simp [completion_items_of]⟩).detail = some "function" ∧
    CompletionItem.documentation
        ((completion_items_of [⟨"add", "function", "Adds two numbers."⟩]).get
          ⟨0, by simp [completion_items_of]⟩) = some "Adds two numbers." ∧
    ((completion_items_of [⟨"add", "function", "Adds two numbers."⟩]).get
        ⟨0, by simp [completion_items_of]⟩).kind = get_completion_kind "function" := by
  have h := C10_detail_and_docs_verbatim [⟨"add", "function", "Adds two numbers."⟩] 0
    (by decide) (by simp [completion_items_of])
  exact ⟨h.1, h.2.1, h.2.2.1⟩

end Server
